import Mathlib

/-!
Verification development for the GPT language model of
`src/gpt/src/model-easier.ts` (repository `homemade-gpt-js`).

Modelling conventions (shallow embedding):
* the batch dimension is fixed to `B = 1`, so a token sequence `idx` of
  shape `(1, T)` becomes a `List Int` of length `T`;
* floating-point values are modelled by `ℚ` (and by `ℝ` where the code
  relies on `exp`/`sqrt`, in the attention head);
* `-Infinity` entries produced by masking are modelled by `⊥ : WithBot _`;
* the tensorflow.js library primitives that the file merely composes
  (embedding layers, dense layers, layer normalization, dropout, softmax,
  the multinomial sampler, the backend name) are oracle parameters:
  functions packed into structures (`GenOracle`, `GPTLayers`) that the
  glue code of the repository combines, exactly as the source treats them
  as opaque library calls.
-/

namespace HomemadeGPT

/-- Embeds lines 82-90 of `generate`: the model input for one iteration.
`idx.slice([0, max(0, T - blockSize)], [-1, min(T, blockSize)])` keeps the
last `min T blockSize` tokens (truncating the front when `T > blockSize`),
and `tf.zeros([B, max(0, blockSize - T)], 'int32')` pads the end with `0`
up to `blockSize`; the two parts are concatenated along the time axis.
(Note `Nat` subtraction already realises the `Math.max(0, _)` clamps.) -/
def idxShapedFn (blockSize : Nat) (idx : List Int) : List Int :=
  (idx.drop (idx.length - blockSize)).take (min idx.length blockSize)
    ++ List.replicate (blockSize - idx.length) 0

/-- Embeds the destructuring default `temperature = 1.0` on line 76:
an absent temperature argument resolves to `1`. -/
def resolveTemperature (t : Option ℚ) : ℚ := t.getD 1

/-- Embeds line 100: `tf.div(lastCharLogits, tf.scalar(temperature))`,
elementwise division of the last-position logits by the temperature. -/
def scaleByTemp (t : ℚ) (l : List ℚ) : List ℚ := l.map (fun x => x / t)

/-- The `k`-th largest value of a list (1-based), as produced by
`lastCharLogits.topk(k).values.slice([0, k-1])` on lines 103-104:
`tf.topk` sorts the `k` largest values descending and the slice takes the
last (smallest) of them. -/
def kthLargest (k : Nat) (l : List ℚ) : ℚ :=
  (List.insertionSort (fun a b => b ≤ a) l).getD (k - 1) 0

/-- Embeds the top-k filter of lines 102-106.  `if (topK)` is falsy for
`topK = 0`, so `topK = 0` means no filtering (the logits are merely
injected into `WithBot ℚ`).  Otherwise the threshold is the
`min topK vocabSize`-th largest logit (`Math.min(topK, vocabSize)` is the
cap on line 103) and
`lastCharLogits.where(lastCharLogits.greaterEqual(smallestTopK), tf.scalar(-Infinity))`
keeps every logit `≥` the threshold and replaces the rest by `-Infinity`
(here `⊥`). -/
def topKFilter (topK vocabSize : Nat) (l : List ℚ) : List (WithBot ℚ) :=
  if topK = 0 then l.map (fun x => (x : WithBot ℚ))
  else
    let thr := kthLargest (min topK vocabSize) l
    l.map (fun x => if thr ≤ x then (x : WithBot ℚ) else ⊥)

/-- Embeds `probs.argMax(-1)` (line 133): the index of the first maximal
element of the list (ties resolved to the lowest index, as in tf.js). -/
def argMaxList (l : List ℚ) : Nat :=
  (l.enum.foldl (fun best p => if best.2 < p.2 then p else best)
    (0, l.headD 0)).1

/-- The arguments of `generate` (line 76), with the ambient
`tf.getBackend()` (line 117) included.  `topK = 0` encodes an absent or
zero `topK` (both falsy in `if (topK)`). -/
structure GenConfig where
  maxNewTokens : Nat
  temperature : ℚ
  doSample : Bool
  topK : Nat
  backend : String

/-- The tensorflow.js primitives that `generate` composes, as oracles:
`applyModel` is `model.apply` (a `(1, blockSize)` input gives a
`(1, blockSize, vocabSize)` logits tensor, here a `T × C` row list),
`softmaxF` is `tf.softmax`, `multinomialProbs` is
`tf.multinomial(probs, n, undefined, true)` (normalized probabilities)
and `multinomialLogits` is `tf.multinomial(logits, n)` (unnormalized
logits, `normalized` defaulting to false). -/
structure GenOracle where
  applyModel : List Int → List (List ℚ)
  softmaxF : List (WithBot ℚ) → List ℚ
  multinomialProbs : List ℚ → Nat → List Int
  multinomialLogits : List (WithBot ℚ) → Nat → List Int

/-- Embeds lines 93-97 of `generate`: run the model on the reshaped input
and slice the logits row at position `i < blockSize ? i : blockSize - 1`
(then squeeze the time axis away). -/
def lastRow (M : GenOracle) (blockSize : Nat) (i : Nat) (idx : List Int) :
    List ℚ :=
  (M.applyModel (idxShapedFn blockSize idx)).getD
    (if i < blockSize then i else blockSize - 1) []

/-- Lines 100-106: temperature scaling followed by the top-k filter,
producing the final value of the `lastCharLogits` variable. -/
def stepFiltered (cfg : GenConfig) (vocabSize : Nat) (last : List ℚ) :
    List (WithBot ℚ) :=
  topKFilter cfg.topK vocabSize (scaleByTemp cfg.temperature last)

/-- Embeds lines 109-135: softmax of the filtered logits, then the choice
of the next token.  When `doSample` is set: on the `webgpu` backend two
samples are drawn from `probs` and the entry at index 1 (the second) is
kept (`sampled.slice([0, 1], [1, 1])`, the workaround for the tf.js webgpu
multinomial bug); on the `tensorflow` backend one sample is drawn from the
unnormalized `lastCharLogits`; on any other backend one sample is drawn
from `probs`.  Without `doSample` the argmax of `probs` is taken. -/
def nextTokenOf (M : GenOracle) (cfg : GenConfig)
    (filtered : List (WithBot ℚ)) : Int :=
  let probs := M.softmaxF filtered
  if cfg.doSample then
    if cfg.backend = "webgpu" then (M.multinomialProbs probs 2).getD 1 0
    else if cfg.backend = "tensorflow" then
      (M.multinomialLogits filtered 1).getD 0 0
    else (M.multinomialProbs probs 1).getD 0 0
  else Int.ofNat (argMaxList (M.softmaxF filtered))

/-- One iteration of the `generate` loop (lines 79-150) at loop index `i`:
compute the next token from the current running sequence and append it
(`idx = idx.concat(idxNext, 1)`, line 139). -/
def genStep (M : GenOracle) (cfg : GenConfig) (blockSize vocabSize : Nat)
    (i : Nat) (idx : List Int) : List Int :=
  idx ++ [nextTokenOf M cfg (stepFiltered cfg vocabSize (lastRow M blockSize i idx))]

/-- The `for (let i = 0; i < maxNewTokens; i++)` loop of `generate`,
by recursion on the number of remaining iterations, carrying the loop
index `i`. -/
def generateAux (M : GenOracle) (cfg : GenConfig) (blockSize vocabSize : Nat) :
    Nat → Nat → List Int → List Int
  | 0, _, idx => idx
  | Nat.succ n, i, idx =>
      generateAux M cfg blockSize vocabSize n (i + 1)
        (genStep M cfg blockSize vocabSize i idx)

/-- `model.generate` (lines 75-152): run `maxNewTokens` loop iterations
starting from loop index `0` and return the final running sequence. -/
def generate (M : GenOracle) (cfg : GenConfig) (blockSize vocabSize : Nat)
    (idx : List Int) : List Int :=
  generateAux M cfg blockSize vocabSize cfg.maxNewTokens 0 idx

lemma genStep_length (M : GenOracle) (cfg : GenConfig)
    (blockSize vocabSize i : Nat) (idx : List Int) :
    (genStep M cfg blockSize vocabSize i idx).length = idx.length + 1 := by
  simp [genStep]

lemma generateAux_length (M : GenOracle) (cfg : GenConfig)
    (blockSize vocabSize : Nat) :
    ∀ (n i : Nat) (idx : List Int),
      (generateAux M cfg blockSize vocabSize n i idx).length =
        idx.length + n := by
  intro n
  induction n with
  | zero => intro i idx; rfl
  | succ n ih =>
      intro i idx
      rw [generateAux, ih, genStep_length]
      omega

/-- C4: generation is token-by-token: every loop iteration appends exactly
one token to the running sequence, and a `generate` call with
`maxNewTokens = n` on a sequence of length `T0` performs exactly `n`
iterations and returns a sequence of length `T0 + n`. -/
theorem generate_token_by_token (M : GenOracle) (cfg : GenConfig)
    (blockSize vocabSize : Nat) (idx : List Int) :
    (∀ (i : Nat) (idx' : List Int),
        (genStep M cfg blockSize vocabSize i idx').length = idx'.length + 1) ∧
      (generate M cfg blockSize vocabSize idx).length =
        idx.length + cfg.maxNewTokens := by
  refine ⟨fun i idx' => genStep_length M cfg blockSize vocabSize i idx', ?_⟩
  exact generateAux_length M cfg blockSize vocabSize cfg.maxNewTokens 0 idx

/-- C1 (counterexample): with `blockSize = 2` and a running sequence
`[1, 2, 3]` longer than the block, the model input built by `generate`
is `[2, 3]`, which does not contain the entire running sequence. -/
theorem model_input_loses_old_tokens :
    ¬ ([1, 2, 3] <:+: idxShapedFn 2 [1, 2, 3]) := by
  decide

/-- C1 (amended): the model input of each `generate` iteration contains
the most recent `min T blockSize` tokens of the running sequence: the
entire running sequence (as a left-aligned segment, before the zero
padding) whenever its length is at most `blockSize`, and exactly the last
`blockSize` tokens when the sequence is longer. -/
theorem model_input_window (blockSize : Nat) (idx : List Int) :
    (idx.length ≤ blockSize → idx <+: idxShapedFn blockSize idx) ∧
      (blockSize ≤ idx.length →
        idxShapedFn blockSize idx = idx.drop (idx.length - blockSize)) := by
  constructor
  · intro h
    have h1 : idx.length - blockSize = 0 := Nat.sub_eq_zero_of_le h
    have h2 : min idx.length blockSize = idx.length := min_eq_left h
    simp [idxShapedFn, h1, h2]
  · intro h
    have h1 : blockSize - idx.length = 0 := Nat.sub_eq_zero_of_le h
    have h2 : min idx.length blockSize = blockSize := min_eq_right h
    have h3 : (idx.drop (idx.length - blockSize)).length = blockSize := by
      rw [List.length_drop]; omega
    simp only [idxShapedFn, h1, h2, List.replicate_zero, List.append_nil]
    exact List.take_of_length_le (le_of_eq h3)

/-- C1 (witness): at `blockSize = 2` and sequence `[4, 5]` both parts of
the amended statement hold concretely. -/
theorem model_input_window_witness :
    [4, 5] <+: idxShapedFn 2 [4, 5] ∧
      idxShapedFn 2 [4, 5] = List.drop (List.length [4, 5] - 2) [4, 5] :=
  ⟨(model_input_window 2 [4, 5]).1 (by decide),
    (model_input_window 2 [4, 5]).2 (by decide)⟩

/-- C5: temperature scaling is applied at every generation step: the
last-position logits are divided elementwise by the temperature (which
feeds the top-k filter and then the softmax inside `nextTokenOf`), an
absent temperature defaults to `1`, and division by temperature `1`
leaves the logits unchanged. -/
theorem temperature_scaling_each_step (M : GenOracle) (cfg : GenConfig)
    (blockSize vocabSize i : Nat) (idx : List Int) (l : List ℚ) :
    genStep M cfg blockSize vocabSize i idx =
      idx ++ [nextTokenOf M cfg
        (topKFilter cfg.topK vocabSize
          (scaleByTemp cfg.temperature (lastRow M blockSize i idx)))] ∧
      resolveTemperature none = 1 ∧ scaleByTemp 1 l = l := by
  refine ⟨rfl, rfl, ?_⟩
  simp [scaleByTemp]

/-- The exponential weight `tf.softmax` gives one entry of a (possibly
`-Infinity`-masked) logit row before normalization: `0` for `-Infinity`,
`exp x` for a finite logit `x`. -/
noncomputable def expWQ : WithBot ℚ → ℝ
  | ⊥ => 0
  | (x : ℚ) => Real.exp x

/-- The softmax probability `tf.softmax` assigns to position `j` of a
filtered logit row (line 109, `tf.softmax(lastCharLogits)`). -/
noncomputable def softmaxQRow (l : List (WithBot ℚ)) (j : Nat) : ℝ :=
  expWQ (l.getD j ⊥) / ∑ m ∈ Finset.range l.length, expWQ (l.getD m ⊥)

/-- C2: with a (nonzero) `topK` argument, every logit strictly below the
`min topK vocabSize`-th largest logit is replaced by `-Infinity` (`⊥`)
before the softmax and therefore receives softmax probability zero, and
`topK` is capped at `vocabSize`: any two `topK` values at least
`vocabSize` produce the same filter. -/
theorem topk_restricts_distribution (k vocabSize : Nat) (l : List ℚ)
    (j : Nat) (x : ℚ) (hk : k ≠ 0) (hx : l[j]? = some x) :
    (x < kthLargest (min k vocabSize) l →
        (topKFilter k vocabSize l)[j]? = some ⊥ ∧
          softmaxQRow (topKFilter k vocabSize l) j = 0) ∧
      (vocabSize ≤ k → vocabSize ≠ 0 →
        topKFilter k vocabSize l = topKFilter vocabSize vocabSize l) := by
  constructor
  · intro hlt
    have hker : topKFilter k vocabSize l =
        l.map (fun y =>
          if kthLargest (min k vocabSize) l ≤ y then (y : WithBot ℚ) else ⊥) := by
      simp [topKFilter, hk]
    have hbot : (topKFilter k vocabSize l)[j]? = some ⊥ := by
      rw [hker, List.getElem?_map, hx]
      simp [not_le.mpr hlt]
    refine ⟨hbot, ?_⟩
    have hgd : (topKFilter k vocabSize l).getD j ⊥ = ⊥ := by
      rw [List.getD_eq_getElem?_getD, hbot]; rfl
    simp only [softmaxQRow, hgd]
    simp [expWQ]
  · intro hvk hv0
    have hmin : min k vocabSize = vocabSize := min_eq_right hvk
    simp [topKFilter, hk, hv0, hmin]

/-- C2 (witness): with `topK = 5`, `vocabSize = 2` and logits `[3, 1, 2]`,
the logit `1` at index `1` lies strictly below the capped second-largest
logit `2`, is filtered to `⊥` and gets probability zero, and `topK = 5`
behaves as `topK = 2`. -/
theorem topk_restricts_distribution_witness :
    ((topKFilter 5 2 [3, 1, 2])[1]? = some ⊥ ∧
        softmaxQRow (topKFilter 5 2 [3, 1, 2]) 1 = 0) ∧
      topKFilter 5 2 [3, 1, 2] = topKFilter 2 2 [3, 1, 2] :=
  ⟨(topk_restricts_distribution 5 2 [3, 1, 2] 1 1 (by decide) rfl).1 (by
      norm_num [kthLargest, List.insertionSort, List.orderedInsert]),
    (topk_restricts_distribution 5 2 [3, 1, 2] 1 1 (by decide) rfl).2
      (by decide) (by decide)⟩

/-- C7: the backend-specific sampling workarounds of `generate`: with
`doSample`, the `webgpu` backend draws two multinomial samples from the
softmax probabilities and keeps only the second (index `1`), the
`tensorflow` backend draws one sample from the unnormalized (filtered)
logits, and every other backend draws one sample from the softmax
probabilities. -/
theorem backend_sampling_workarounds (M : GenOracle) (cfg : GenConfig)
    (blockSize vocabSize i : Nat) (idx : List Int)
    (hs : cfg.doSample = true) :
    (cfg.backend = "webgpu" →
        genStep M cfg blockSize vocabSize i idx = idx ++
          [(M.multinomialProbs
              (M.softmaxF (stepFiltered cfg vocabSize (lastRow M blockSize i idx)))
              2).getD 1 0]) ∧
      (cfg.backend = "tensorflow" →
        genStep M cfg blockSize vocabSize i idx = idx ++
          [(M.multinomialLogits
              (stepFiltered cfg vocabSize (lastRow M blockSize i idx))
              1).getD 0 0]) ∧
      (cfg.backend ≠ "webgpu" → cfg.backend ≠ "tensorflow" →
        genStep M cfg blockSize vocabSize i idx = idx ++
          [(M.multinomialProbs
              (M.softmaxF (stepFiltered cfg vocabSize (lastRow M blockSize i idx)))
              1).getD 0 0]) := by
  refine ⟨fun h => ?_, fun h => ?_, fun h1 h2 => ?_⟩
  · simp [genStep, nextTokenOf, hs, h]
  · simp [genStep, nextTokenOf, hs, h]
  · simp [genStep, nextTokenOf, hs, h1, h2]

/-- A concrete oracle used to exercise the sampling branches. -/
def constOracle : GenOracle where
  applyModel := fun _ => [[1, 0]]
  softmaxF := fun _ => [1, 0]
  multinomialProbs := fun _ n => List.replicate n 7
  multinomialLogits := fun _ n => List.replicate n 8

/-- A concrete `webgpu` sampling configuration. -/
def cfgWebgpu : GenConfig where
  maxNewTokens := 1
  temperature := 1
  doSample := true
  topK := 0
  backend := "webgpu"

/-- C7 (witness): on the concrete `webgpu` configuration one `generate`
step appends the second of the two drawn samples. -/
theorem backend_sampling_workarounds_witness :
    genStep constOracle cfgWebgpu 2 2 0 [] = [] ++
      [(constOracle.multinomialProbs
          (constOracle.softmaxF (stepFiltered cfgWebgpu 2 (lastRow constOracle 2 0 [])))
          2).getD 1 0] :=
  (backend_sampling_workarounds constOracle cfgWebgpu 2 2 0 [] rfl).1 rfl

/-! ### The attention head (`Head`, lines 222-254) -/

/-- Embeds line 231: `tf.linalg.bandPart(tf.ones([blockSize, blockSize]), -1, 0)`,
the lower-triangular matrix of ones: entry `(i, j)` (for `i, j < blockSize`)
is `1` when `j ≤ i` and `0` otherwise. -/
def trilMask (blockSize i j : Nat) : ℚ :=
  if i < blockSize ∧ j < blockSize ∧ j ≤ i then 1 else 0

/-- Embeds line 242: the raw attention scores
`tf.matMul(q, k.transpose([0, 2, 1])).mul(tf.scalar(1 / Math.sqrt(headSize)))`,
for one batch element, with `q` and `k` the outputs of the query and key
dense layers given as functions `(time, channel) → ℝ`. -/
noncomputable def attScores (headSize : Nat) (q k : Nat → Nat → ℝ)
    (i j : Nat) : ℝ :=
  (∑ l ∈ Finset.range headSize, q i l * k j l) * (1 / Real.sqrt headSize)

/-- Embeds line 243:
`tf.where(tril.slice([0, 0], [T, T]).equal(0), tf.scalar(-Infinity), att)` —
wherever the (sliced) lower-triangular mask is `0` the score becomes
`-Infinity` (`⊥`), elsewhere it is kept. -/
noncomputable def maskedAtt (blockSize : Nat) (att : Nat → Nat → ℝ)
    (i j : Nat) : WithBot ℝ :=
  if trilMask blockSize i j = 0 then ⊥ else (att i j : WithBot ℝ)

/-- The exponential weight `tf.softmax` assigns to one entry before
normalization: a masked (`-Infinity`) entry weighs `0`, a finite entry `x`
weighs `exp x`. -/
noncomputable def expW : WithBot ℝ → ℝ
  | ⊥ => 0
  | (x : ℝ) => Real.exp x

/-- Row-wise softmax (line 244, `tf.softmax(att)`) over a row of length
`T`: entry `j` is its exponential weight divided by the row's total
weight. -/
noncomputable def softmaxRowFn (T : Nat) (row : Nat → WithBot ℝ) (j : Nat) : ℝ :=
  expW (row j) / ∑ l ∈ Finset.range T, expW (row l)

/-- C3: the attention is causal: for every pair of positions `(i, j)` with
`j > i` the masked attention score is `-Infinity` (`⊥`) before the
softmax, and after the row-wise softmax position `i` attends to the later
position `j` with weight `0`. -/
theorem attention_is_causal (blockSize headSize T : Nat)
    (q k : Nat → Nat → ℝ) (i j : Nat) (hij : i < j) :
    maskedAtt blockSize (attScores headSize q k) i j = ⊥ ∧
      softmaxRowFn T (fun l => maskedAtt blockSize (attScores headSize q k) i l)
        j = 0 := by
  have hmask : maskedAtt blockSize (attScores headSize q k) i j = ⊥ := by
    have : trilMask blockSize i j = 0 := by
      simp [trilMask, Nat.not_le.mpr hij]
    simp [maskedAtt, this]
  refine ⟨hmask, ?_⟩
  simp only [softmaxRowFn, hmask]
  simp [expW]

/-- C3 (witness): at `blockSize = 2`, `headSize = 1`, `T = 2`, zero query
and key activations, position `0` cannot attend to position `1`. -/
theorem attention_is_causal_witness :
    maskedAtt 2 (attScores 1 (fun _ _ => 0) (fun _ _ => 0)) 0 1 = ⊥ ∧
      softmaxRowFn 2
        (fun l => maskedAtt 2 (attScores 1 (fun _ _ => 0) (fun _ _ => 0)) 0 l)
        1 = 0 :=
  attention_is_causal 2 1 2 (fun _ _ => 0) (fun _ _ => 0) 0 1 (by decide)

/-! ### Tensor bookkeeping in one `generate` iteration (lines 79-150)

`model.apply` runs inside `tf.tidy` (line 39), so of its internals only
the returned logits tensor survives; every other tensor creation inside
the loop body is listed below in program order.  The `dispose` helper is
imported from `src/gpt/src/utils.ts`, which is not part of the sources
provided; per the specification's description of "(c) bookkeeping helpers
for disposing intermediate tensors", it is modelled as disposing each
non-null tensor reference in the list it is given. -/

/-- The four sampling branches of lines 116-135. -/
inductive SampleBranch
  | argmax
  | webgpu
  | tfnode
  | generic
  deriving DecidableEq, Fintype

/-- Which sampling branch lines 116-135 take, from `doSample` and the
active backend name. -/
def branchOf (doSample : Bool) (backend : String) : SampleBranch :=
  if doSample then
    if backend = "webgpu" then .webgpu
    else if backend = "tensorflow" then .tfnode
    else .generic
  else .argmax

/-- Names for the tensors referenced in one `generate` loop iteration;
each constructor is one tensor creation site (plus `oldIdxT`, the running
sequence carried in from the previous iteration, and `newIdxT`, the new
running sequence produced by `idx.concat`). -/
inductive TRef
  | sliceIdx      -- line 85, `idx.slice(...)`
  | padZeros      -- line 87, `tf.zeros(...)`
  | idxShapedT    -- line 82, `tf.concat(...)`
  | logitsT       -- line 93, `model.apply(idxShaped)` (its tidy keeps only this)
  | sliceLast     -- line 97, `logits.slice(...)`
  | squeezeLast   -- line 97, `.squeeze([1])` (first value of lastCharLogits)
  | tempScalar    -- line 100, `tf.scalar(temperature)`
  | divLogits     -- line 100, `tf.div(...)` (second value of lastCharLogits)
  | topkValues    -- line 103, `.topk(...).values`
  | topkIndices   -- line 103, `.topk(...).indices`
  | smallestTopK  -- line 104, `values.slice(...)`
  | geMask        -- line 105, `lastCharLogits.greaterEqual(...)`
  | negInfScalar  -- line 105, `tf.scalar(-Infinity)`
  | whereLogits   -- line 105, `.where(...)` (third value of lastCharLogits)
  | probsT        -- line 109, `tf.softmax(lastCharLogits)`
  | argmaxT       -- line 133, `probs.argMax(-1)`
  | expandDimsT   -- line 133, `.expandDims(-1)` (sampled = idxNext)
  | multiTwo      -- line 121, `tf.multinomial(probs, 2, ...)` (sampled)
  | multiTwoSliced -- line 122, `sampled.slice(...)` (idxNextSliced = idxNext)
  | multiOneLogits -- line 126, `tf.multinomial(lastCharLogits, 1)` (sampled = idxNext)
  | multiOneProbs -- line 129, `tf.multinomial(probs, 1, ...)` (sampled = idxNext)
  | oldIdxT       -- line 138, the previous running sequence (oldIdx)
  | newIdxT       -- line 139, `idx.concat(idxNext, 1)`
  deriving DecidableEq, Fintype

/-- The tensors allocated during one loop iteration, in program order,
for a given top-k usage and sampling branch. -/
def allocatedInIter (useTopK : Bool) (b : SampleBranch) : List TRef :=
  [.sliceIdx, .padZeros, .idxShapedT, .logitsT, .sliceLast, .squeezeLast,
    .tempScalar, .divLogits]
  ++ (if useTopK then
        [.topkValues, .topkIndices, .smallestTopK, .geMask, .negInfScalar,
          .whereLogits]
      else [])
  ++ [.probsT]
  ++ (match b with
      | .argmax => [.argmaxT, .expandDimsT]
      | .webgpu => [.multiTwo, .multiTwoSliced]
      | .tfnode => [.multiOneLogits]
      | .generic => [.multiOneProbs])
  ++ [.newIdxT]

/-- The tensor the `lastCharLogits` variable refers to at line 146 (its
final reassignment): the top-k `where` output when top-k ran, otherwise
the temperature-division output. -/
def finalLastCharLogits (useTopK : Bool) : TRef :=
  if useTopK then .whereLogits else .divLogits

/-- The tensor the `sampled` variable refers to at line 146. -/
def sampledRef (b : SampleBranch) : TRef :=
  match b with
  | .argmax => .expandDimsT
  | .webgpu => .multiTwo
  | .tfnode => .multiOneLogits
  | .generic => .multiOneProbs

/-- The tensor the `idxNext` variable refers to at line 146. -/
def idxNextRef (b : SampleBranch) : TRef :=
  match b with
  | .argmax => .expandDimsT
  | .webgpu => .multiTwoSliced
  | .tfnode => .multiOneLogits
  | .generic => .multiOneProbs

/-- Modelled from the spec: the `dispose` helper of `src/gpt/src/utils.ts`
(not among the provided sources) disposes each non-null tensor in its
argument list; line 146 passes
`[idxShaped, logits, lastCharLogits, probs, sampled, idxNextSliced, idxNext, oldIdx]`
(`idxNextSliced` is non-null only on the `webgpu` branch). -/
def disposedInIter (useTopK : Bool) (b : SampleBranch) : List TRef :=
  [.idxShapedT, .logitsT, finalLastCharLogits useTopK, .probsT,
    sampledRef b]
  ++ (if b = .webgpu then [.multiTwoSliced] else [])
  ++ [idxNextRef b, .oldIdxT]

/-- C8 (counterexample): the tensor created by `logits.slice(...)` on
line 97 is allocated in every iteration (here: top-k on, generic sampling
branch) but never disposed, so an intermediate tensor from one iteration
is still live in the next — the claim that every intermediate tensor is
disposed fails. -/
theorem disposal_misses_an_intermediate :
    TRef.sliceLast ∈ allocatedInIter true .generic ∧
      TRef.sliceLast ∉ disposedInIter true .generic := by
  decide

/-- C8 (amended): in every configuration, the tensors named in the
`dispose` call — the reshaped input, the logits, the final
(scaled/filtered) last-position logits, the softmax probabilities, the
sampled tensors and the previous running sequence — are disposed before
the next iteration begins, and everything disposed was allocated in this
iteration (or is the carried-in previous sequence); but not every
intermediate tensor is disposed: in every configuration some intermediate
other than the new running sequence stays live. -/
theorem disposal_of_listed_tensors :
    ∀ (useTopK : Bool) (b : SampleBranch),
      (TRef.idxShapedT ∈ disposedInIter useTopK b ∧
        TRef.logitsT ∈ disposedInIter useTopK b ∧
        finalLastCharLogits useTopK ∈ disposedInIter useTopK b ∧
        TRef.probsT ∈ disposedInIter useTopK b ∧
        sampledRef b ∈ disposedInIter useTopK b ∧
        idxNextRef b ∈ disposedInIter useTopK b ∧
        TRef.oldIdxT ∈ disposedInIter useTopK b) ∧
      (∀ t ∈ disposedInIter useTopK b,
        t = TRef.oldIdxT ∨ t ∈ allocatedInIter useTopK b) ∧
      ∃ t ∈ allocatedInIter useTopK b,
        t ∉ disposedInIter useTopK b ∧ t ≠ TRef.newIdxT := by
  decide

/-- C8 (witness): in the top-k/generic configuration, the disposed
tensor `probsT` was indeed allocated in the iteration. -/
theorem disposal_of_listed_tensors_witness :
    TRef.probsT = TRef.oldIdxT ∨ TRef.probsT ∈ allocatedInIter true .generic :=
  (disposal_of_listed_tensors true .generic).2.1 TRef.probsT (by decide)

/-! ### The forward pass (`GPT(...).apply`, lines 39-59, and `Block`,
lines 178-195)

Activations of shape `(1, T, C)` are modelled as `T`-element lists of
`C`-element rows (`Mat`).  The library layers (embeddings, dropout, layer
normalizations, the attention and MLP sub-layers of each block) are
oracle functions collected in `GPTLayers`; the `lmHead` dense layer
(line 35: `units: vocabSize, useBias: false`) is modelled concretely as a
bias-free matrix-vector product so that its output size is visible. -/

/-- Activations: a list of per-position rows. -/
abbrev Mat := List (List ℚ)

/-- Elementwise tensor addition (`x.add(y)` / `tf.layers.add`). -/
def addT (a b : Mat) : Mat := List.zipWith (List.zipWith (· + ·)) a b

/-- Dot product of two rows. -/
def dot (a b : List ℚ) : ℚ := (List.zipWith (· * ·) a b).sum

/-- A dense layer without bias, one output coordinate per weight row:
models `tf.layers.dense({ units: vocabSize, useBias: false })` applied to
one position's activation vector (`W` has `units` rows). -/
def denseNoBias (W : List (List ℚ)) (v : List ℚ) : List ℚ :=
  W.map (fun row => dot row v)

/-- The library-provided sub-layers of the model, as oracles: the token
and position embeddings, the embedding dropout, and for each block index
its two layer normalizations, its attention module and its MLP. -/
structure GPTLayers where
  wte : List Int → Mat
  wpe : List Nat → Mat
  drop : Mat → Mat
  blockLn1 : Nat → Mat → Mat
  blockAttn : Nat → Mat → Mat
  blockLn2 : Nat → Mat → Mat
  blockMlp : Nat → Mat → Mat
  lnF : Mat → Mat

/-- Embeds `Block(...).apply` (lines 186-192):
`x = x.add(attn.apply(ln1.apply(x)))` then
`x = x.add(mlp.apply(ln2.apply(x)))`. -/
def blockApply (ln1 attn ln2 mlp : Mat → Mat) (x : Mat) : Mat :=
  let x1 := addT x (attn (ln1 x))
  addT x1 (mlp (ln2 x1))

/-- Embeds line 32: `transformer.h`, the list of `nLayer` blocks built by
`Array.from({ length: nLayer }, (_, i) => Block(...))`. -/
def mkBlocks (L : GPTLayers) (nLayer : Nat) : List (Mat → Mat) :=
  (List.range nLayer).map
    (fun i => blockApply (L.blockLn1 i) (L.blockAttn i) (L.blockLn2 i) (L.blockMlp i))

/-- Embeds the body of `model.apply` after the block-size check
(lines 43-58): token embedding of the input, position embedding of
`tf.range(0, T, 1)`, their sum, dropout, the blocks applied in order
(`transformer.h.forEach`), the final layer normalization and the `lmHead`
projection. -/
def gptApply (L : GPTLayers) (W : List (List ℚ)) (nLayer : Nat)
    (idx : List Int) : Mat :=
  let tokEmb := L.wte idx
  let posEmb := L.wpe (List.range idx.length)
  let x0 := L.drop (addT tokEmb posEmb)
  let xF := L.lnF ((mkBlocks L nLayer).foldl (fun x b => b x) x0)
  xF.map (denseNoBias W)

/-- Modelled from the spec claim (the topology it asserts): one
transformer block step, `x + attn(ln1(x))` followed by `x + mlp(ln2(x))`
on the updated `x`. -/
def specBlockStep (L : GPTLayers) (i : Nat) (x : Mat) : Mat :=
  addT (addT x (L.blockAttn i (L.blockLn1 i x)))
    (L.blockMlp i (L.blockLn2 i (addT x (L.blockAttn i (L.blockLn1 i x)))))

/-- Modelled from the spec claim: apply blocks `i, i+1, ..., i+n-1` in
sequence. -/
def specBlocksFrom (L : GPTLayers) : Nat → Nat → Mat → Mat
  | _, 0, x => x
  | i, Nat.succ n, x => specBlocksFrom L (i + 1) n (specBlockStep L i x)

/-- Modelled from the spec claim: token embeddings plus position
embeddings, dropout, then `nLayer` transformer blocks in sequence, a
final layer normalization, then the linear `lmHead`. -/
def specGPTApply (L : GPTLayers) (W : List (List ℚ)) (nLayer : Nat)
    (idx : List Int) : Mat :=
  (L.lnF (specBlocksFrom L 0 nLayer
      (L.drop (addT (L.wte idx) (L.wpe (List.range idx.length)))))).map
    (denseNoBias W)

lemma foldl_mkBlocks_eq_specBlocksFrom (L : GPTLayers) :
    ∀ (n s : Nat) (x : Mat),
      (((List.range' s n).map
          (fun i => blockApply (L.blockLn1 i) (L.blockAttn i)
            (L.blockLn2 i) (L.blockMlp i))).foldl (fun x b => b x) x) =
        specBlocksFrom L s n x := by
  intro n
  induction n with
  | zero => intro s x; rfl
  | succ n ih =>
      intro s x
      rw [List.range'_succ, List.map_cons, List.foldl_cons, ih,
        specBlocksFrom]
      rfl

/-- C6: the forward pass wires the standard GPT topology: `model.apply`
equals the spec-side composition (embeddings sum, dropout, the `nLayer`
blocks in order — each `x + attn(ln1 x)` then `x + mlp(ln2 x)` — final
layer normalization, `lmHead`); the model has exactly `nLayer` blocks;
and when the `lmHead` weight matrix has `vocabSize` rows (its `units`),
every row of the produced logits has size `vocabSize`. -/
theorem forward_pass_topology (L : GPTLayers) (W : List (List ℚ))
    (nLayer vocabSize : Nat) (idx : List Int) (hW : W.length = vocabSize) :
    gptApply L W nLayer idx = specGPTApply L W nLayer idx ∧
      (mkBlocks L nLayer).length = nLayer ∧
      ∀ row ∈ gptApply L W nLayer idx, row.length = vocabSize := by
  refine ⟨?_, by simp [mkBlocks], ?_⟩
  · unfold gptApply specGPTApply mkBlocks
    simp only [List.range_eq_range']
    exact congrArg (List.map (denseNoBias W))
      (congrArg L.lnF (foldl_mkBlocks_eq_specBlocksFrom L nLayer 0 _))
  · intro row hrow
    unfold gptApply at hrow
    rcases List.mem_map.mp hrow with ⟨v, _, hv⟩
    rw [← hv]
    simp [denseNoBias, hW]

/-- A concrete set of trivial layer oracles used as a witness input. -/
def constLayers : GPTLayers where
  wte := fun _ => [[0]]
  wpe := fun _ => [[0]]
  drop := id
  blockLn1 := fun _ => id
  blockAttn := fun _ => id
  blockLn2 := fun _ => id
  blockMlp := fun _ => id
  lnF := id

/-- C6 (witness): with trivial layers, one block and a two-row `lmHead`
weight matrix, the wiring equality, the block count and the logits size
hold concretely. -/
theorem forward_pass_topology_witness :
    gptApply constLayers [[1], [2]] 1 [0] =
        specGPTApply constLayers [[1], [2]] 1 [0] ∧
      (mkBlocks constLayers 1).length = 1 ∧
      ∀ row ∈ gptApply constLayers [[1], [2]] 1 [0], row.length = 2 :=
  forward_pass_topology constLayers [[1], [2]] 1 2 [0] rfl

/-! ### The block-size check of `model.apply` (lines 40-41) -/

/-- Embeds `model.apply` including its input check (lines 40-41):
`if (T !== blockSize) throw new Error(...)`, with the thrown error as the
`Except.error` case. -/
def modelApplyChecked (L : GPTLayers) (W : List (List ℚ))
    (nLayer blockSize : Nat) (idx : List Int) : Except String Mat :=
  if idx.length ≠ blockSize then
    .error ("Sequence must be of size " ++ toString blockSize ++ ", got "
      ++ toString idx.length)
  else .ok (gptApply L W nLayer idx)

/-- C9: `model.apply` throws (with a message naming the required size)
exactly when the input's time length differs from `blockSize`, and
succeeds when it equals `blockSize`; and the reshaped model input built
by every `generate` iteration always has length exactly `blockSize`, so
feeding it to `model.apply` never triggers this error. -/
theorem apply_blocksize_check (L : GPTLayers) (W : List (List ℚ))
    (nLayer blockSize : Nat) (idx : List Int) :
    modelApplyChecked L W nLayer blockSize idx =
        (if idx.length = blockSize then .ok (gptApply L W nLayer idx)
         else .error ("Sequence must be of size " ++ toString blockSize
           ++ ", got " ++ toString idx.length)) ∧
      (idxShapedFn blockSize idx).length = blockSize ∧
      modelApplyChecked L W nLayer blockSize (idxShapedFn blockSize idx) =
        .ok (gptApply L W nLayer (idxShapedFn blockSize idx)) := by
  have hlen : ∀ ids : List Int, (idxShapedFn blockSize ids).length = blockSize := by
    intro ids
    simp only [idxShapedFn, List.length_append, List.length_take,
      List.length_drop, List.length_replicate]
    omega
  refine ⟨?_, hlen idx, ?_⟩
  · by_cases h : idx.length = blockSize <;> simp [modelApplyChecked, h]
  · simp [modelApplyChecked, hlen (idxShapedFn blockSize idx), hlen idx]

/-! ### The head-size check of `CausalSelfAttention` (lines 198-205) -/

/-- Embeds the construction of `CausalSelfAttention` (lines 201-205):
`if (nEmbd % nHead !== 0) throw new Error('Cannot calculate head size: ...')`
runs before any of the `nHead` heads is created, so in the error case no
head exists; otherwise the `nHead` heads are created, each with
`headSize = nEmbd / nHead`.  (In JavaScript `nEmbd % 0` is `NaN`, which
also fails the `!== 0` test, hence the `nHead = 0` disjunct.)  The result
is the list of created head sizes. -/
def causalSelfAttentionInit (nEmbd nHead : Nat) : Except String (List Nat) :=
  if nHead = 0 ∨ nEmbd % nHead ≠ 0 then
    .error "Cannot calculate head size: nEmbd % nHead !== 0"
  else .ok (List.replicate nHead (nEmbd / nHead))

/-- Embeds the block construction chain of `GPT` (line 32 and line 182):
constructing the model builds `nLayer` blocks in order, and each block
constructs its `CausalSelfAttention`; the first failing attention
construction aborts the whole model construction. -/
def gptBlocksInit (nEmbd nHead : Nat) : Nat → Except String (List (List Nat))
  | 0 => .ok []
  | Nat.succ n => do
      let h ← causalSelfAttentionInit nEmbd nHead
      let rest ← gptBlocksInit nEmbd nHead n
      return h :: rest

/-- C10: for positive `nHead`, constructing the attention module (and
hence the model, when it has at least one layer) throws
`Cannot calculate head size` exactly when `nEmbd` is not divisible by
`nHead`, before any head is created; when it is divisible, construction
succeeds and every one of the `nHead` heads of each of the `nLayer`
blocks has size `nEmbd / nHead`. -/
theorem head_size_check (nEmbd nHead nLayer : Nat) (hpos : 0 < nHead) :
    causalSelfAttentionInit nEmbd nHead =
        (if nHead ∣ nEmbd then .ok (List.replicate nHead (nEmbd / nHead))
         else .error "Cannot calculate head size: nEmbd % nHead !== 0") ∧
      gptBlocksInit nEmbd nHead nLayer =
        (if nHead ∣ nEmbd then
          .ok (List.replicate nLayer (List.replicate nHead (nEmbd / nHead)))
         else if nLayer = 0 then .ok []
         else .error "Cannot calculate head size: nEmbd % nHead !== 0") := by
  have hne : nHead ≠ 0 := Nat.pos_iff_ne_zero.mp hpos
  have hdvd : nHead ∣ nEmbd ↔ nEmbd % nHead = 0 := Nat.dvd_iff_mod_eq_zero
  have hcsa : causalSelfAttentionInit nEmbd nHead =
      (if nHead ∣ nEmbd then .ok (List.replicate nHead (nEmbd / nHead))
       else .error "Cannot calculate head size: nEmbd % nHead !== 0") := by
    by_cases h : nHead ∣ nEmbd
    · simp [causalSelfAttentionInit, hne, hdvd.mp h, h]
    · have : nEmbd % nHead ≠ 0 := fun hc => h (hdvd.mpr hc)
      simp [causalSelfAttentionInit, hne, this, h]
  refine ⟨hcsa, ?_⟩
  induction nLayer with
  | zero => by_cases h : nHead ∣ nEmbd <;> simp [gptBlocksInit, h]
  | succ n ih =>
      by_cases h : nHead ∣ nEmbd
      · rw [if_pos h] at ih
        simp only [gptBlocksInit, hcsa, if_pos h, ih]
        rfl
      · rw [if_neg h] at ih
        simp only [gptBlocksInit, hcsa, if_neg h]
        rw [if_neg (Nat.succ_ne_zero n)]
        rfl

/-- C10 (witness): with `nEmbd = 4`, `nHead = 2` and one layer, the
attention construction succeeds with two heads of size `2`. -/
theorem head_size_check_witness :
    causalSelfAttentionInit 4 2 =
        (if (2 : Nat) ∣ 4 then .ok (List.replicate 2 (4 / 2))
         else .error "Cannot calculate head size: nEmbd % nHead !== 0") ∧
      gptBlocksInit 4 2 1 =
        (if (2 : Nat) ∣ 4 then .ok (List.replicate 1 (List.replicate 2 (4 / 2)))
         else if (1 : Nat) = 0 then .ok []
         else .error "Cannot calculate head size: nEmbd % nHead !== 0") :=
  head_size_check 4 2 1 (by decide)

end HomemadeGPT
